import Mathlib

/-
Verification of the synthesis-and-postprocessing orchestration pipeline of
the Text-To-Audio application (src/main.py).

Modelling conventions:
- Python float values are modelled as exact rationals.
- Python int() applied to a float truncates toward zero; this is ratTrunc.
- A WAV file is modelled by its header fields and its decoded sample list.
- Qt signal/slot side effects are modelled by explicit state passing: the
  relevant MainWindow attributes form the record OrchState, and the slots
  become functions from OrchState to OrchState paired with the externally
  visible effect (worker started, drained action).
-/

/-- Truncation toward zero of a rational, the behaviour of Python int()
applied to a float value. -/
def ratTrunc (q : ℚ) : ℤ := if q < 0 then -⌊-q⌋ else ⌊q⌋

theorem ratTrunc_intCast (v : ℤ) : ratTrunc (v : ℚ) = v := by
  rw [ratTrunc]
  split
  · rw [← Int.cast_neg, Int.floor_intCast]
    ring
  · rw [Int.floor_intCast]

/-- Left-pad a digit string with zeros to 5 characters. -/
def pad5 (s : String) : String := String.mk (List.replicate (5 - s.length) '0') ++ s

/-- Fixed-point rendering of a nonnegative rational with exactly 5 decimal
places, modelling the Python format specifier .5f used for the atempo value. -/
def format5 (q : ℚ) : String :=
  let n : ℕ := (round (q * 100000)).toNat
  toString (n / 100000) ++ "." ++ pad5 (toString (n % 100000))

/-- Module level constant DEFAULT_RATE = 180 of src/main.py. -/
def DEFAULT_RATE : ℚ := 180

/-- Module level constant MIN_LENGTH_SCALE = 0.5 of src/main.py. -/
def MIN_LENGTH_SCALE : ℚ := 1/2

/-- Module level constant MAX_LENGTH_SCALE = 2.0 of src/main.py. -/
def MAX_LENGTH_SCALE : ℚ := 2

/-- Module level constant PITCH_MIN = 0.5 of src/main.py. -/
def PITCH_MIN : ℚ := 1/2

/-- Module level constant PITCH_MAX = 2.0 of src/main.py. -/
def PITCH_MAX : ℚ := 2

/-- A decoded uncompressed PCM container: header metadata plus the sample
values (signed integers, interleaved across channels). -/
structure WavFile where
  nchannels : ℕ
  sampwidth : ℕ
  framerate : ℕ
  samples : List ℤ
deriving DecidableEq

namespace TTSEngineService

/-- Embedding of TTSEngineService._rate_to_length_scale (src/main.py lines
157 to 161): nonpositive rates return 1.0 without dividing, positive rates
return DEFAULT_RATE divided by rate clamped to the length-scale range. -/
def rate_to_length_scale (rate : ℤ) : ℚ :=
  if rate ≤ 0 then 1
  else max MIN_LENGTH_SCALE (min MAX_LENGTH_SCALE (DEFAULT_RATE / (rate : ℚ)))

/-- The per-sample saturation of the gain loop of _apply_volume_to_wav
(src/main.py lines 268 to 274): values above 32767 clamp to 32767, values
below -32768 clamp to -32768. -/
def clampSample (z : ℤ) : ℤ :=
  if z > 32767 then 32767
  else if z < -32768 then -32768
  else z

/-- Embedding of TTSEngineService._apply_volume_to_wav (src/main.py lines
241 to 284). The return value is the content written to the destination
path: some w means the destination now holds w, none means the function
returned without writing the destination. samePath states whether the
source and destination paths are the same file. Branches, in source order:
the factor is clamped to [0, 2]; a clamped factor of exactly 1 copies the
source through (no write needed when the paths coincide); a sample width
other than 2 bytes returns early without writing; otherwise every sample
is scaled by the factor, truncated toward zero by Python int(), and
saturated to the signed 16-bit range. -/
def apply_volume_to_wav (samePath : Bool) (src : WavFile) (volume : ℚ) : Option WavFile :=
  let volume_factor := max 0 (min 2 volume)
  if volume_factor = 1 then
    if samePath then none else some src
  else if src.sampwidth ≠ 2 then none
  else
    some { src with
      samples := src.samples.map (fun v : ℤ => clampSample (ratTrunc ((v : ℚ) * volume_factor))) }

/-- The ffmpeg audio filter expression built by apply_pitch_to_wav
(src/main.py lines 214 to 216): asetrate is the native frame rate scaled by
the pitch, truncated by Python int() and floored at 8000; atempo is the
reciprocal pitch rendered with 5 decimal places. -/
def pitch_filter_arg (framerate : ℕ) (pitch : ℚ) : String :=
  let asetrate : ℤ := max 8000 (ratTrunc ((framerate : ℚ) * pitch))
  let atempo : ℚ := 1 / pitch
  "asetrate=" ++ toString asetrate ++ ",atempo=" ++ format5 atempo

/-- The failure modes of apply_pitch_to_wav, each raised as a RuntimeError
in the source: the pitch range check and the missing ffmpeg executable. -/
inductive PitchError where
  | pitchOutOfRange
  | toolUnavailable
deriving DecidableEq

/-- The successful outcomes of apply_pitch_to_wav: a byte-identical copy of
the source at the destination, or an ffmpeg resampling invocation with the
given audio filter expression whose output replaces the destination. -/
inductive PitchOutcome where
  | copied
  | resampled (filterArg : String)
deriving DecidableEq

/-- Embedding of TTSEngineService.apply_pitch_to_wav (src/main.py lines 196
to 239). Branches, in source order: a pitch within 0.001 of 1 short
circuits to a byte-identical copy before any other check; a pitch below
PITCH_MIN or above PITCH_MAX raises the range error; a missing ffmpeg
executable raises the tool error; otherwise ffmpeg runs with the filter
expression built from the source frame rate and the pitch. -/
def apply_pitch_to_wav (ffmpegAvailable : Bool) (framerate : ℕ) (pitch : ℚ) :
    Except PitchError PitchOutcome :=
  if |pitch - 1| < 1/1000 then Except.ok PitchOutcome.copied
  else if pitch < PITCH_MIN ∨ pitch > PITCH_MAX then Except.error PitchError.pitchOutOfRange
  else if ¬ffmpegAvailable then Except.error PitchError.toolUnavailable
  else Except.ok (PitchOutcome.resampled (pitch_filter_arg framerate pitch))

end TTSEngineService

/-- Definition written from the words of the specification, for comparison
with the code: the spec says the gain maps every sample to
round(sample * factor) clamped saturating to the signed 16-bit range. -/
def specGainSample (value : ℤ) (factor : ℚ) : ℤ :=
  max (-32768) (min 32767 (round ((value : ℚ) * factor)))

/-- Definition written from the words of the specification, for comparison
with the code: the spec says the filter expression is asetrate equal to
max(8000, round(nativeFrameRate * pitch)) followed by atempo equal to the
reciprocal pitch with 5 decimal places. -/
def specFilterArg (framerate : ℕ) (pitch : ℚ) : String :=
  "asetrate=" ++ toString (max 8000 (round ((framerate : ℚ) * pitch)))
    ++ ",atempo=" ++ format5 (1 / pitch)

/-- The amended specification wording for the filter expression: identical
to specFilterArg except that the product of frame rate and pitch is
truncated toward zero (Python int()) instead of rounded. -/
def specFilterArgTrunc (framerate : ℕ) (pitch : ℚ) : String :=
  "asetrate=" ++ toString (max 8000 (ratTrunc ((framerate : ℚ) * pitch)))
    ++ ",atempo=" ++ format5 (1 / pitch)

namespace MainWindow

/-- The MainWindow attributes that the job orchestration logic reads and
writes (src/main.py lines 331 to 341): the last synthesis result, the
preview cache fields, the busy flag, and the three pending-action slots.
pendingSavePath equal to the empty string means no save is pending, as in
the source where the empty string is falsy. -/
structure OrchState where
  lastWavPath : String
  previewWavPath : String
  previewPitch : ℚ
  isBusy : Bool
  pendingPreview : Bool
  pendingSavePath : String
  autoPending : Bool
  autoGenerateEnabled : Bool
deriving DecidableEq

/-- The externally visible consequence of the completion handler: which
recorded pending action, if any, it executes. -/
inductive DrainAction where
  | none
  | preview
  | save (path : String)
  | startAutoTimer
deriving DecidableEq

/-- Number of recorded pending actions in a state. -/
def pendingCount (s : OrchState) : ℕ :=
  (if s.pendingPreview then 1 else 0)
    + (if s.pendingSavePath ≠ "" then 1 else 0)
    + (if s.autoPending then 1 else 0)

/-- Embedding of MainWindow._generate_audio (src/main.py lines 935 to 959).
Inputs besides the state: manual says whether the call is a user action,
textOk whether the stripped text is nonempty, voiceOk whether a voice is
selected. The Bool of the result is true exactly when a SynthesisWorker is
started. Branches, in source order: while busy an automatic call records
the auto-retry slot and a manual call returns unchanged; empty text or a
missing voice abort without a job; otherwise a manual call latches
auto-generation, the busy flag is set and the worker starts. -/
def generate_audio (s : OrchState) (manual : Bool) (textOk : Bool) (voiceOk : Bool) :
    OrchState × Bool :=
  if s.isBusy then
    (if manual then s else { s with autoPending := true }, false)
  else if ¬textOk then (s, false)
  else if ¬voiceOk then (s, false)
  else
    ({ s with
        autoGenerateEnabled := if manual then true else s.autoGenerateEnabled,
        isBusy := true }, true)

/-- Embedding of MainWindow._on_generated (src/main.py lines 965 to 989),
the completion slot of the synthesis worker. Branches, in source order: the
busy flag is always dropped first; a failed job shows the error and returns
at once, leaving every other field untouched; a successful job stores the
produced path, resets the preview cache fields, then consults the pending
slots in the order preview, save, auto-retry, clearing and executing the
first one that is set. -/
def on_generated (s : OrchState) (ok : Bool) (_message : String) (path : String) :
    OrchState × DrainAction :=
  let s1 := { s with isBusy := false }
  if ¬ok then (s1, DrainAction.none)
  else
    let s2 := { s1 with lastWavPath := path, previewWavPath := "", previewPitch := 1 }
    if s2.pendingPreview then ({ s2 with pendingPreview := false }, DrainAction.preview)
    else if s2.pendingSavePath ≠ "" then
      ({ s2 with pendingSavePath := "" }, DrainAction.save s2.pendingSavePath)
    else if s2.autoPending then ({ s2 with autoPending := false }, DrainAction.startAutoTimer)
    else (s2, DrainAction.none)

end MainWindow

open TTSEngineService MainWindow

theorem apply_pitch_error_iff (ffmpeg : Bool) (framerate : ℕ) (pitch : ℚ)
    (h : 1/1000 ≤ |pitch - 1|) :
    apply_pitch_to_wav ffmpeg framerate pitch = Except.error PitchError.pitchOutOfRange ↔
      (pitch < 1/2 ∨ 2 < pitch) := by
  simp only [apply_pitch_to_wav, PITCH_MIN, PITCH_MAX]
  rw [if_neg (not_lt.mpr h)]
  by_cases hr : pitch < 1/2 ∨ pitch > 2
  · rw [if_pos hr]
    exact ⟨fun _ => hr, fun _ => rfl⟩
  · rw [if_neg hr]
    constructor
    · intro he
      exfalso
      cases ffmpeg with
      | false => simp at he
      | true => simp at he
    · intro hcontra
      exact absurd hcontra hr

/-- Claim C6: for every pitch not within 0.001 of 1.0, apply_pitch_to_wav
fails with the pitch range error exactly when the pitch lies outside
[0.5, 2.0]; the values 0.49 and 2.01 are rejected while the boundary values
0.5 and 2.0 are not; and every pitch within 0.001 of 1.0 short-circuits to
a byte-identical copy with no range check and no external tool invocation,
whatever the tool availability. -/
theorem c6_pitch_validation (ffmpeg : Bool) (framerate : ℕ) (pitch : ℚ) :
    (1/1000 ≤ |pitch - 1| →
      (apply_pitch_to_wav ffmpeg framerate pitch = Except.error PitchError.pitchOutOfRange ↔
        (pitch < 1/2 ∨ 2 < pitch))) ∧
    (|pitch - 1| < 1/1000 →
      apply_pitch_to_wav ffmpeg framerate pitch = Except.ok PitchOutcome.copied) ∧
    apply_pitch_to_wav ffmpeg framerate (49/100) = Except.error PitchError.pitchOutOfRange ∧
    apply_pitch_to_wav ffmpeg framerate (201/100) = Except.error PitchError.pitchOutOfRange ∧
    apply_pitch_to_wav ffmpeg framerate (1/2) ≠ Except.error PitchError.pitchOutOfRange ∧
    apply_pitch_to_wav ffmpeg framerate 2 ≠ Except.error PitchError.pitchOutOfRange := by
  have h49 : (1:ℚ)/1000 ≤ |(49:ℚ)/100 - 1| := by
    rw [abs_of_neg (by norm_num : (49:ℚ)/100 - 1 < 0)]
    norm_num
  have h201 : (1:ℚ)/1000 ≤ |(201:ℚ)/100 - 1| := by
    rw [abs_of_nonneg (by norm_num : (0:ℚ) ≤ 201/100 - 1)]
    norm_num
  have hhalf : (1:ℚ)/1000 ≤ |(1:ℚ)/2 - 1| := by
    rw [abs_of_neg (by norm_num : (1:ℚ)/2 - 1 < 0)]
    norm_num
  have htwo : (1:ℚ)/1000 ≤ |(2:ℚ) - 1| := by
    rw [abs_of_nonneg (by norm_num : (0:ℚ) ≤ 2 - 1)]
    norm_num
  refine ⟨fun h => apply_pitch_error_iff ffmpeg framerate pitch h, ?_, ?_, ?_, ?_, ?_⟩
  · intro h
    simp only [apply_pitch_to_wav]
    rw [if_pos h]
  · exact (apply_pitch_error_iff ffmpeg framerate _ h49).mpr (by norm_num)
  · exact (apply_pitch_error_iff ffmpeg framerate _ h201).mpr (by norm_num)
  · intro he
    have := (apply_pitch_error_iff ffmpeg framerate _ hhalf).mp he
    norm_num at this
  · intro he
    have := (apply_pitch_error_iff ffmpeg framerate _ htwo).mp he
    norm_num at this

theorem c6_pitch_validation_witness :
    ((1:ℚ)/1000 ≤ |(49:ℚ)/100 - 1|) ∧
    (apply_pitch_to_wav true 22050 (49/100) = Except.error PitchError.pitchOutOfRange ↔
      ((49:ℚ)/100 < 1/2 ∨ 2 < (49:ℚ)/100)) :=
  ⟨by rw [abs_of_neg (by norm_num : (49:ℚ)/100 - 1 < 0)]; norm_num,
   (c6_pitch_validation true 22050 (49/100)).1
     (by rw [abs_of_neg (by norm_num : (49:ℚ)/100 - 1 < 0)]; norm_num)⟩

/-- Claim C5 counterexample: at native frame rate 22050 and pitch 0.75, the
code builds asetrate from int(22050 * 0.75) = int(16537.5) = 16537
(truncation), while the specification formula round(22050 * 0.75) gives
16538, so the filter expression actually passed differs from the one the
claim states. -/
theorem c5_counterexample :
    apply_pitch_to_wav true 22050 (3/4) =
      Except.ok (PitchOutcome.resampled "asetrate=16537,atempo=1.33333") ∧
    specFilterArg 22050 (3/4) = "asetrate=16538,atempo=1.33333" ∧
    ("asetrate=16537,atempo=1.33333" : String) ≠ "asetrate=16538,atempo=1.33333" := by
  have habs : ¬(|(3:ℚ)/4 - 1| < 1/1000) := by
    rw [abs_of_neg (by norm_num : (3:ℚ)/4 - 1 < 0)]
    norm_num
  have htr : ratTrunc (((22050:ℕ) : ℚ) * (3/4)) = 16537 := by
    rw [ratTrunc]
    norm_num
  have hrd : round (((22050:ℕ) : ℚ) * (3/4)) = 16538 := by
    norm_num [round_eq]
  have hfrac : (1 : ℚ) / (3/4) = 4/3 := by norm_num
  have hfmt : format5 ((1:ℚ) / (3/4)) = "1.33333" := by
    rw [hfrac, format5]
    rw [show round ((4/3 : ℚ) * 100000) = 133333 from by norm_num [round_eq]]
    decide
  refine ⟨?_, ?_, by decide⟩
  · simp only [apply_pitch_to_wav, PITCH_MIN, PITCH_MAX]
    rw [if_neg habs,
      if_neg (by push_neg; exact ⟨by norm_num, by norm_num⟩ :
        ¬((3:ℚ)/4 < 1/2 ∨ (3:ℚ)/4 > 2)),
      if_neg (by simp)]
    rw [pitch_filter_arg, htr, hfmt]
    rw [show max (8000:ℤ) 16537 = 16537 from max_eq_right (by norm_num)]
    congr 1
  · rw [specFilterArg, hrd, hfmt]
    rw [show max (8000:ℤ) 16538 = 16538 from max_eq_right (by norm_num)]
    decide

/-- Claim C5, amended: for every pitch in [0.5, 2.0] not within 0.001 of
1.0 and every source frame rate, the audio filter expression passed to the
resampler is exactly asetrate = max(8000, int(nativeFrameRate * pitch))
with int() truncating toward zero, followed by atempo = 1/pitch formatted
with 5 decimal places. -/
theorem c5_filter_expression (framerate : ℕ) (pitch : ℚ)
    (h1 : 1/2 ≤ pitch) (h2 : pitch ≤ 2) (h3 : 1/1000 ≤ |pitch - 1|) :
    apply_pitch_to_wav true framerate pitch =
      Except.ok (PitchOutcome.resampled (specFilterArgTrunc framerate pitch)) := by
  simp only [apply_pitch_to_wav, PITCH_MIN, PITCH_MAX]
  rw [if_neg (not_lt.mpr h3),
    if_neg (by push_neg; exact ⟨h1, h2⟩ : ¬(pitch < 1/2 ∨ pitch > 2)),
    if_neg (by simp)]
  rw [pitch_filter_arg, specFilterArgTrunc]

theorem c5_filter_expression_witness :
    ((1:ℚ)/2 ≤ 3/2 ∧ (3:ℚ)/2 ≤ 2 ∧ (1:ℚ)/1000 ≤ |(3:ℚ)/2 - 1|) ∧
    apply_pitch_to_wav true 22050 (3/2) =
      Except.ok (PitchOutcome.resampled (specFilterArgTrunc 22050 (3/2))) :=
  ⟨⟨by norm_num, by norm_num,
    by rw [abs_of_nonneg (by norm_num : (0:ℚ) ≤ 3/2 - 1)]; norm_num⟩,
   c5_filter_expression 22050 (3/2) (by norm_num) (by norm_num)
     (by rw [abs_of_nonneg (by norm_num : (0:ℚ) ≤ 3/2 - 1)]; norm_num)⟩

/-- Claim C7: for every positive rate, the rate-to-length-scale conversion
returns 180 / rate clamped to [0.5, 2.0]; rate 90 maps to exactly 2.0 and
rate 300 maps to exactly 0.6. -/
theorem c7_rate_to_length_scale (rate : ℤ) (h : 0 < rate) :
    rate_to_length_scale rate = max (1/2) (min 2 (180 / (rate : ℚ))) ∧
    rate_to_length_scale 90 = 2 ∧
    rate_to_length_scale 300 = 3/5 := by
  refine ⟨?_, ?_, ?_⟩
  · simp only [rate_to_length_scale, DEFAULT_RATE, MIN_LENGTH_SCALE, MAX_LENGTH_SCALE]
    rw [if_neg (by omega)]
  · simp only [rate_to_length_scale, DEFAULT_RATE, MIN_LENGTH_SCALE, MAX_LENGTH_SCALE]
    rw [if_neg (by omega : ¬((90:ℤ) ≤ 0))]
    rw [show (180 : ℚ) / ((90:ℤ) : ℚ) = 2 from by norm_num]
    rw [min_self, max_eq_right (by norm_num : (1:ℚ)/2 ≤ 2)]
  · simp only [rate_to_length_scale, DEFAULT_RATE, MIN_LENGTH_SCALE, MAX_LENGTH_SCALE]
    rw [if_neg (by omega : ¬((300:ℤ) ≤ 0))]
    rw [show (180 : ℚ) / ((300:ℤ) : ℚ) = 3/5 from by norm_num]
    rw [min_eq_right (by norm_num : (3:ℚ)/5 ≤ 2),
      max_eq_right (by norm_num : (1:ℚ)/2 ≤ 3/5)]

theorem c7_rate_to_length_scale_witness :
    (0:ℤ) < 180 ∧
    (rate_to_length_scale 180 = max (1/2) (min 2 (180 / ((180:ℤ) : ℚ))) ∧
      rate_to_length_scale 90 = 2 ∧
      rate_to_length_scale 300 = 3/5) :=
  ⟨by norm_num, c7_rate_to_length_scale 180 (by norm_num)⟩

/-- Claim C10: for every rate less than or equal to 0, the conversion
returns 1.0 without performing the division, so the function is total and
never divides by zero. -/
theorem c10_nonpositive_rate (rate : ℤ) (h : rate ≤ 0) :
    rate_to_length_scale rate = 1 := by
  simp only [rate_to_length_scale]
  rw [if_pos h]

theorem c10_nonpositive_rate_witness :
    (-5:ℤ) ≤ 0 ∧ rate_to_length_scale (-5) = 1 :=
  ⟨by norm_num, c10_nonpositive_rate (-5) (by norm_num)⟩

theorem clampSample_mem_range (z : ℤ) : -32768 ≤ clampSample z ∧ clampSample z ≤ 32767 := by
  rw [clampSample]
  split_ifs <;> omega

theorem clampSample_of_range {v : ℤ} (h1 : -32768 ≤ v) (h2 : v ≤ 32767) :
    clampSample v = v := by
  rw [clampSample, if_neg (by omega), if_neg (by omega)]

/-- Claim C4 counterexample: at sample value 1 and gain factor 0.75 the
code computes int(1 * 0.75) = 0 (truncation toward zero), while the
specification formula round(1 * 0.75) clamped gives 1, so the gain does
not map each sample to round(sample * factor) clamped. -/
theorem c4_counterexample :
    apply_volume_to_wav false ⟨1, 2, 22050, [1]⟩ (3/4) = some ⟨1, 2, 22050, [0]⟩ ∧
    specGainSample 1 (3/4) = 1 := by
  have hcl : max (0:ℚ) (min 2 (3/4)) = 3/4 := by
    rw [min_eq_right (by norm_num : (3:ℚ)/4 ≤ 2), max_eq_right (by norm_num : (0:ℚ) ≤ 3/4)]
  have htr : ratTrunc ((3:ℚ)/4) = 0 := by
    rw [ratTrunc]
    norm_num
  constructor
  · simp only [apply_volume_to_wav, hcl]
    norm_num [htr, clampSample]
  · rw [specGainSample]
    rw [show round (((1:ℤ) : ℚ) * (3/4)) = 1 from by norm_num [round_eq]]
    rw [min_eq_right (by norm_num : (1:ℤ) ≤ 32767),
      max_eq_right (by norm_num : (-32768:ℤ) ≤ 1)]

/-- Claim C4, amended: for every 16-bit PCM buffer and every gain factor in
[0, 2], the gain operation writes the destination and maps each sample to
int(sample * factor) (truncation toward zero, not rounding) clamped
saturating to [-32768, 32767], so every output sample stays within the
signed 16-bit range. -/
theorem c4_gain_saturation (w : WavFile) (factor : ℚ) (hw : w.sampwidth = 2)
    (h0 : 0 ≤ factor) (h2 : factor ≤ 2)
    (hs : ∀ v ∈ w.samples, -32768 ≤ v ∧ v ≤ 32767) :
    ∃ out, apply_volume_to_wav false w factor = some out ∧
      out.samples = w.samples.map (fun v : ℤ => clampSample (ratTrunc ((v : ℚ) * factor))) ∧
      ∀ t ∈ out.samples, -32768 ≤ t ∧ t ≤ 32767 := by
  have hcl : max (0:ℚ) (min 2 factor) = factor := by
    rw [min_eq_right h2, max_eq_right h0]
  by_cases hf : factor = 1
  · subst hf
    refine ⟨w, ?_, ?_, fun t ht => hs t ht⟩
    · simp only [apply_volume_to_wav, hcl]
      rfl
    · symm
      have hid : ∀ v ∈ w.samples, clampSample (ratTrunc ((v:ℚ) * 1)) = id v := by
        intro v hv
        obtain ⟨ha, hb⟩ := hs v hv
        rw [mul_one, ratTrunc_intCast]
        exact clampSample_of_range ha hb
      rw [List.map_congr_left hid, List.map_id]
  · refine ⟨{ w with
        samples := w.samples.map (fun v : ℤ => clampSample (ratTrunc ((v : ℚ) * factor))) },
      ?_, rfl, ?_⟩
    · simp only [apply_volume_to_wav, hcl]
      rw [if_neg hf, if_neg (show ¬(w.sampwidth ≠ 2) by simp [hw])]
    · intro t ht
      simp only [List.mem_map] at ht
      obtain ⟨v, hv, rfl⟩ := ht
      exact clampSample_mem_range _

theorem c4_gain_saturation_witness :
    ((⟨1, 2, 22050, [1000, -32768]⟩ : WavFile).sampwidth = 2 ∧ (0:ℚ) ≤ 3/2 ∧ (3:ℚ)/2 ≤ 2 ∧
      ∀ v ∈ (⟨1, 2, 22050, [1000, -32768]⟩ : WavFile).samples, -32768 ≤ v ∧ v ≤ 32767) ∧
    (∃ out, apply_volume_to_wav false ⟨1, 2, 22050, [1000, -32768]⟩ (3/2) = some out ∧
      out.samples = (⟨1, 2, 22050, [1000, -32768]⟩ : WavFile).samples.map
        (fun v : ℤ => clampSample (ratTrunc ((v : ℚ) * (3/2)))) ∧
      ∀ t ∈ out.samples, -32768 ≤ t ∧ t ≤ 32767) :=
  ⟨⟨rfl, by norm_num, by norm_num, by decide⟩,
   c4_gain_saturation ⟨1, 2, 22050, [1000, -32768]⟩ (3/2) rfl (by norm_num) (by norm_num)
     (by decide)⟩

/-- Claim C8 counterexample: for an 8-bit buffer and gain factor 0.5 the
code returns after reading the source without writing anything to the
destination, so the destination does not receive the source audio; it is
not written at all, refuting the pass-through reading of the claim. -/
theorem c8_counterexample :
    apply_volume_to_wav false ⟨1, 1, 8000, [10]⟩ (1/2) = none ∧
    (none : Option WavFile) ≠ some ⟨1, 1, 8000, [10]⟩ := by
  have hmax : max (0:ℚ) (min 2 (1/2)) ≠ 1 := by
    rw [min_eq_right (by norm_num : (1:ℚ)/2 ≤ 2), max_eq_right (by norm_num : (0:ℚ) ≤ 1/2)]
    norm_num
  refine ⟨?_, by decide⟩
  simp only [apply_volume_to_wav]
  rw [if_neg hmax, if_pos (by decide : (⟨1, 1, 8000, [10]⟩ : WavFile).sampwidth ≠ 2)]

/-- Claim C8, amended: for every PCM input whose sample width is not 16
bits, the gain operation raises no error and never corrupts the source;
when the clamped factor is exactly 1 it copies the source through to the
destination, but for any other factor it returns silently without writing
the destination at all (no pass-through copy is made). -/
theorem c8_unsupported_width (w : WavFile) (volume : ℚ) (samePath : Bool)
    (hw : w.sampwidth ≠ 2) :
    (max 0 (min 2 volume) = 1 →
      apply_volume_to_wav samePath w volume = if samePath then none else some w) ∧
    (max 0 (min 2 volume) ≠ 1 → apply_volume_to_wav samePath w volume = none) := by
  constructor
  · intro h
    simp only [apply_volume_to_wav]
    rw [if_pos h]
  · intro h
    simp only [apply_volume_to_wav]
    rw [if_neg h, if_pos hw]

theorem c8_unsupported_width_witness :
    ((⟨1, 1, 8000, [10]⟩ : WavFile).sampwidth ≠ 2 ∧ max (0:ℚ) (min 2 (1/2)) ≠ 1) ∧
    apply_volume_to_wav false ⟨1, 1, 8000, [10]⟩ (1/2) = none := by
  have hmax : max (0:ℚ) (min 2 (1/2)) ≠ 1 := by
    rw [min_eq_right (by norm_num : (1:ℚ)/2 ≤ 2), max_eq_right (by norm_num : (0:ℚ) ≤ 1/2)]
    norm_num
  exact ⟨⟨by decide, hmax⟩,
    (c8_unsupported_width ⟨1, 1, 8000, [10]⟩ (1/2) false (by decide)).2 hmax⟩

/-- Claim C1 counterexample: in a Running state with both pending-save
(path out.wav) and pending-preview recorded, successful completion executes
the preview, not the save, and the pending save stays recorded: the drain
priority puts preview before save, not save first. -/
theorem c1_counterexample :
    (on_generated ⟨"", "", 1, true, true, "out.wav", false, true⟩ true "OK" "a.wav").2 =
      DrainAction.preview ∧
    (on_generated ⟨"", "", 1, true, true, "out.wav", false, true⟩ true "OK" "a.wav").2 ≠
      DrainAction.save "out.wav" ∧
    (on_generated ⟨"", "", 1, true, true, "out.wav", false, true⟩
        true "OK" "a.wav").1.pendingSavePath = "out.wav" :=
  ⟨rfl, by decide, rfl⟩

/-- Claim C1, amended: when a running synthesis job completes successfully,
the orchestrator drains exactly one recorded pending action, chosen in the
priority order pending-preview first, then pending-save, then
pending-auto-retry, and clears only the one it drains (the other recorded
slots stay set); whenever at least one action is recorded, the number of
recorded actions decreases by exactly one. -/
theorem c1_drain_priority (s : OrchState) (msg path : String) :
    (s.pendingPreview = true →
      (on_generated s true msg path).2 = DrainAction.preview ∧
      (on_generated s true msg path).1.pendingPreview = false ∧
      (on_generated s true msg path).1.pendingSavePath = s.pendingSavePath ∧
      (on_generated s true msg path).1.autoPending = s.autoPending) ∧
    (s.pendingPreview = false → s.pendingSavePath ≠ "" →
      (on_generated s true msg path).2 = DrainAction.save s.pendingSavePath ∧
      (on_generated s true msg path).1.pendingPreview = false ∧
      (on_generated s true msg path).1.pendingSavePath = "" ∧
      (on_generated s true msg path).1.autoPending = s.autoPending) ∧
    (s.pendingPreview = false → s.pendingSavePath = "" → s.autoPending = true →
      (on_generated s true msg path).2 = DrainAction.startAutoTimer ∧
      (on_generated s true msg path).1.pendingPreview = false ∧
      (on_generated s true msg path).1.pendingSavePath = "" ∧
      (on_generated s true msg path).1.autoPending = false) ∧
    (0 < pendingCount s →
      pendingCount (on_generated s true msg path).1 = pendingCount s - 1) := by
  obtain ⟨lw, pw, pp, busy, pprev, psave, apend, agen⟩ := s
  cases pprev <;> cases apend <;> by_cases hps : psave = "" <;>
    simp_all [on_generated, pendingCount]

theorem c1_drain_priority_witness :
    ((⟨"", "", 1, true, true, "out.wav", false, true⟩ : OrchState).pendingPreview = true) ∧
    ((on_generated ⟨"", "", 1, true, true, "out.wav", false, true⟩ true "OK" "a.wav").2 =
        DrainAction.preview ∧
      (on_generated ⟨"", "", 1, true, true, "out.wav", false, true⟩
          true "OK" "a.wav").1.pendingPreview = false ∧
      (on_generated ⟨"", "", 1, true, true, "out.wav", false, true⟩
          true "OK" "a.wav").1.pendingSavePath =
        (⟨"", "", 1, true, true, "out.wav", false, true⟩ : OrchState).pendingSavePath ∧
      (on_generated ⟨"", "", 1, true, true, "out.wav", false, true⟩
          true "OK" "a.wav").1.autoPending =
        (⟨"", "", 1, true, true, "out.wav", false, true⟩ : OrchState).autoPending) :=
  ⟨rfl, (c1_drain_priority ⟨"", "", 1, true, true, "out.wav", false, true⟩ "OK" "a.wav").1 rfl⟩

/-- Claim C2 counterexample: a manual generate call issued while a job is
Running is dropped entirely: no worker starts, the state is unchanged, and
no pending action is recorded, so the second of two manual generate
requests is not retained as a pending action. -/
theorem c2_counterexample :
    generate_audio ⟨"", "", 1, true, false, "", false, true⟩ true true true =
      (⟨"", "", 1, true, false, "", false, true⟩, false) ∧
    pendingCount (generate_audio ⟨"", "", 1, true, false, "", false, true⟩ true true true).1 =
      0 :=
  ⟨rfl, rfl⟩

/-- Claim C2, amended: a generate call while a job is Running never starts
a second synthesis worker; an automatic (non-manual) call records the
pending-auto-retry slot while a manual call leaves the state unchanged and
records nothing; and a worker only ever starts from a non-busy state which
it makes busy, so at most one job is Running at any time. -/
theorem c2_single_flight (s : OrchState) (manual textOk voiceOk : Bool) :
    (s.isBusy = true →
      (generate_audio s manual textOk voiceOk).2 = false ∧
      (manual = true → (generate_audio s manual textOk voiceOk).1 = s) ∧
      (manual = false →
        (generate_audio s manual textOk voiceOk).1 = { s with autoPending := true })) ∧
    ((generate_audio s manual textOk voiceOk).2 = true →
      s.isBusy = false ∧ (generate_audio s manual textOk voiceOk).1.isBusy = true) := by
  obtain ⟨lw, pw, pp, busy, pprev, psave, apend, agen⟩ := s
  cases manual <;> cases textOk <;> cases voiceOk <;> cases busy <;> simp [generate_audio]

theorem c2_single_flight_witness :
    ((⟨"", "", 1, true, false, "", false, true⟩ : OrchState).isBusy = true) ∧
    ((generate_audio ⟨"", "", 1, true, false, "", false, true⟩ false true true).2 = false ∧
      (false = true →
        (generate_audio ⟨"", "", 1, true, false, "", false, true⟩ false true true).1 =
          ⟨"", "", 1, true, false, "", false, true⟩) ∧
      (false = false →
        (generate_audio ⟨"", "", 1, true, false, "", false, true⟩ false true true).1 =
          { (⟨"", "", 1, true, false, "", false, true⟩ : OrchState) with
              autoPending := true })) :=
  ⟨rfl, (c2_single_flight ⟨"", "", 1, true, false, "", false, true⟩ false true true).1 rfl⟩

/-- Claim C3 counterexample: a failed completion with all three pending
actions recorded leaves all three still recorded: the pending slots are not
cleared on failure, they are only left unexecuted. -/
theorem c3_counterexample :
    (on_generated ⟨"", "", 1, true, true, "out.wav", true, true⟩
        false "boom" "").1.pendingPreview = true ∧
    (on_generated ⟨"", "", 1, true, true, "out.wav", true, true⟩
        false "boom" "").1.pendingSavePath = "out.wav" ∧
    (on_generated ⟨"", "", 1, true, true, "out.wav", true, true⟩
        false "boom" "").1.autoPending = true ∧
    (on_generated ⟨"", "", 1, true, true, "out.wav", true, true⟩ false "boom" "").2 =
      DrainAction.none :=
  ⟨rfl, rfl, rfl, rfl⟩

/-- Claim C3, amended: when a running synthesis job completes with failure
the orchestrator surfaces the error, returns to Idle and executes no
pending action at that moment, but every recorded pending action is
retained unchanged rather than cleared, so it will be drained by the next
successful completion. -/
theorem c3_failure_keeps_pending (s : OrchState) (msg path : String) :
    (on_generated s false msg path).2 = DrainAction.none ∧
    (on_generated s false msg path).1.isBusy = false ∧
    (on_generated s false msg path).1.pendingPreview = s.pendingPreview ∧
    (on_generated s false msg path).1.pendingSavePath = s.pendingSavePath ∧
    (on_generated s false msg path).1.autoPending = s.autoPending := by
  simp [on_generated]

/-- Claim C9: a job started by generate_audio and completed with failure
leaves the last synthesis result path and the preview cache fields (preview
path and preview pitch) exactly as they were before the job started, so a
previously generated result stays available after a failed regeneration. -/
theorem c9_failure_frame_effect (s : OrchState) (manual textOk voiceOk : Bool)
    (msg path : String) :
    (on_generated (generate_audio s manual textOk voiceOk).1 false msg path).1.lastWavPath =
      s.lastWavPath ∧
    (on_generated (generate_audio s manual textOk voiceOk).1 false msg path).1.previewWavPath =
      s.previewWavPath ∧
    (on_generated (generate_audio s manual textOk voiceOk).1 false msg path).1.previewPitch =
      s.previewPitch := by
  obtain ⟨lw, pw, pp, busy, pprev, psave, apend, agen⟩ := s
  cases manual <;> cases textOk <;> cases voiceOk <;> cases busy <;>
    simp [generate_audio, on_generated]
